import Mathlib

/-!
Verification development for the AICinePipe GPU worker-pool scheduler.

This file shallowly embeds the scheduler subsystem of the repository:
`master/services/scheduler.py` (VRAM-aware worker selection and job
dispatch), `master/services/job_manager.py` (job store operations),
`master/services/health_monitor.py` (liveness checks), and the heartbeat
registration path of `master/routers/websocket.py`.

Modelling conventions:
- Python floats become rationals (`ℚ`); timestamps are abstract rationals.
- Python dictionaries keyed by id become association lists processed in
  insertion order (matching `dict.values()` iteration order).
- The SQLite job table becomes a list of `Job` rows; `INSERT OR REPLACE`
  and `UPDATE ... WHERE id = ?` become keyed map operations on that list.
- Python truthiness of `Optional[...]` arguments is modelled explicitly
  (e.g. `0.0`, `""` and `None` are falsy).
-/

namespace AICinePipe

/-- One GPU descriptor as stored in `WorkerInfo.gpus`
(`scheduler.py`): a dict with `memory_total_mb` and `memory_used_mb`,
each defaulting to 0 when absent (`gpu.get(..., 0)`). We model the dict
by the two values after the `get` with default. -/
structure GPU where
  memory_total_mb : ℚ
  memory_used_mb : ℚ
deriving DecidableEq, Repr

/-- The `WorkerInfo` dataclass from `master/services/scheduler.py`. -/
structure WorkerInfo where
  worker_id : String
  name : String
  host : String
  port : ℤ
  gpus : List GPU
  status : String
  current_job_id : Option String
  last_heartbeat : Option ℚ
  is_simulated : Bool
deriving DecidableEq, Repr

/-- The `WorkerInfo.total_vram_gb`: sum of `memory_total_mb / 1024` over GPUs. -/
def WorkerInfo.total_vram_gb (w : WorkerInfo) : ℚ :=
  (w.gpus.map (fun g => g.memory_total_mb / 1024)).sum

/-- The `WorkerInfo.free_vram_gb`: sum of `(total - used) / 1024` over GPUs. -/
def WorkerInfo.free_vram_gb (w : WorkerInfo) : ℚ :=
  (w.gpus.map (fun g => (g.memory_total_mb - g.memory_used_mb) / 1024)).sum

/-- The `WorkerInfo.is_available`: status is `"online"` and `current_job_id is None`. -/
def WorkerInfo.is_available (w : WorkerInfo) : Bool :=
  w.status == "online" && w.current_job_id.isNone

/-- The `VRAM_REQUIREMENTS` table from `scheduler.py`, entries in
source order. -/
def VRAM_REQUIREMENTS : List (String × ℚ) :=
  [("flux_t2i", 14), ("flux_i2i", 14),
   ("sdxl_t2i", 8), ("sdxl_i2i", 8),
   ("sd15_t2i", 4), ("sd15_i2i", 4),
   ("controlnet", 16), ("inpainting", 10),
   ("qwen_image_edit", 10), ("instruct_pix2pix", 8),
   ("wan_animate", 20), ("wan_2_2", 20),
   ("ltx_2", 36), ("svi", 20),
   ("cogvideox", 24), ("hunyuan_video", 24),
   ("rife_interpolation", 4), ("real_esrgan", 4),
   ("upscale", 6),
   ("default", 8)]

/-- The `Scheduler.get_vram_requirement`:
`VRAM_REQUIREMENTS.get(workflow_type, VRAM_REQUIREMENTS["default"])`. -/
def get_vram_requirement (workflow_type : String) : ℚ :=
  (VRAM_REQUIREMENTS.lookup workflow_type).getD
    ((VRAM_REQUIREMENTS.lookup "default").getD 0)

/-- The resolution `required_vram_gb or VRAM_REQUIREMENTS.get(...)` at the
top of `select_worker`: Python `or` falls through when the left operand is
falsy, i.e. `None` or `0.0`. -/
def resolveVramNeeded (required_vram_gb : Option ℚ) (workflow_type : String) : ℚ :=
  match required_vram_gb with
  | none => get_vram_requirement workflow_type
  | some v => if v = 0 then get_vram_requirement workflow_type else v

/-- The candidate filter of `select_worker`: keep workers that are
available and whose free VRAM is not below the requirement
(`continue` on `not worker.is_available` or on
`worker.free_vram_gb < vram_needed`). -/
def candidateList (workers : List WorkerInfo) (workflow_type : String)
    (required_vram_gb : Option ℚ) : List WorkerInfo :=
  let vram_needed := resolveVramNeeded required_vram_gb workflow_type
  workers.filter (fun w => w.is_available && decide (vram_needed ≤ w.free_vram_gb))

/-- Strict comparison of the sort keys `(not w.is_simulated, w.free_vram_gb)`
used by `candidates.sort(key=..., reverse=True)`: `a` ranks strictly below
`b` when `a` is simulated and `b` is not, or both flags agree and `a` has
strictly less free VRAM. -/
def keyLt (a b : WorkerInfo) : Bool :=
  (a.is_simulated && !b.is_simulated) ||
    ((a.is_simulated == b.is_simulated) && decide (a.free_vram_gb < b.free_vram_gb))

/-- The `candidates.sort(key=..., reverse=True)` followed by `candidates[0]`:
a stable descending sort's head is the earliest element with maximal key,
which this left fold computes (a later element replaces the current best
only when its key is strictly greater). -/
def pickBest : List WorkerInfo → Option WorkerInfo
  | [] => none
  | w :: ws => some (ws.foldl (fun best c => if keyLt best c then c else best) w)

/-- The `Scheduler.select_worker` from `scheduler.py`: resolve the VRAM
requirement, filter candidates, sort by `(not is_simulated, free_vram_gb)`
descending, return the head (or `None` when no candidate qualifies). -/
def select_worker (workers : List WorkerInfo) (workflow_type : String)
    (required_vram_gb : Option ℚ) : Option WorkerInfo :=
  pickBest (candidateList workers workflow_type required_vram_gb)

/-! ## Job store (`master/models/job.py`, `master/services/job_manager.py`) -/

/-- The `JobStatus` enum from `master/models/job.py`. -/
inductive JobStatus where
  | pending
  | assigned
  | running
  | completed
  | failed
  | cancelled
deriving DecidableEq, Repr

/-- A terminal status, as tested by
`status in (JobStatus.COMPLETED, JobStatus.FAILED, JobStatus.CANCELLED)`. -/
def JobStatus.isTerminal : JobStatus → Bool
  | .completed => true
  | .failed => true
  | .cancelled => true
  | _ => false

/-- The `Job` model from `master/models/job.py` (the fields persisted by
`JobManager._save_job`); `params` is opaque to the scheduler and is kept
as an abstract string payload. -/
structure Job where
  id : String
  project_id : String
  shot_id : Option String
  workflow_type : String
  params : String
  vram_required_gb : ℤ
  gpu_count_required : ℤ
  status : JobStatus
  priority : ℤ
  progress : ℚ
  assigned_worker_id : Option String
  created_at : ℚ
  started_at : Option ℚ
  completed_at : Option ℚ
  error_message : Option String
  output_files : List String
deriving DecidableEq, Repr

/-- The job table: rows in insertion order. -/
abbrev JobStore := List Job

/-- The `JobManager.get_job`: `SELECT * FROM jobs WHERE id = ?` (first row). -/
def get_job (jobs : JobStore) (job_id : String) : Option Job :=
  jobs.find? (fun j => j.id == job_id)

/-- The `JobManager._save_job`: `INSERT OR REPLACE` keyed on the id column —
every row with the job's id is replaced by the new row (ids are a primary
key, so at most one row matches). -/
def save_job (jobs : JobStore) (j : Job) : JobStore :=
  jobs.map (fun x => if x.id == j.id then j else x)

/-- Python truthiness of the `Optional[str]` argument `message`
(`if message:`): `None` and the empty string are falsy. -/
def strTruthy : Option String → Bool
  | none => false
  | some s => !(s == "")

/-- The field updates `JobManager.update_job_status` applies to a fetched
job: set `status`; set `error_message` when `message` is truthy; on
`RUNNING` set `started_at := now`; on a terminal status set
`completed_at := now`. -/
def applyStatusUpdate (now : ℚ) (status : JobStatus) (message : Option String)
    (j : Job) : Job :=
  let j1 := { j with status := status }
  let j2 := if strTruthy message then { j1 with error_message := message } else j1
  if status = .running then { j2 with started_at := some now }
  else if status.isTerminal then { j2 with completed_at := some now }
  else j2

/-- The `JobManager.update_job_status`: fetch the job (warn and return when
absent), apply the field updates, and save. The Python method always
returns `None`; the store after the call is the whole observable result. -/
def update_job_status (jobs : JobStore) (now : ℚ) (job_id : String)
    (status : JobStatus) (message : Option String) : JobStore :=
  match get_job jobs job_id with
  | none => jobs
  | some j => save_job jobs (applyStatusUpdate now status message j)

/-- The `JobManager.get_pending_job`:
`SELECT * FROM jobs WHERE status = 'pending' ORDER BY created_at ASC LIMIT 1`.
A pure read: the earliest-created pending row (first in table order on
ties), with no mutation of the store. -/
def get_pending_job (jobs : JobStore) : Option Job :=
  match jobs.filter (fun j => j.status == .pending) with
  | [] => none
  | p :: ps => some (ps.foldl (fun best c =>
      if c.created_at < best.created_at then c else best) p)

/-- The `JobManager.update_job_progress`:
`UPDATE jobs SET progress = ? WHERE id = ?` — the raw value is stored,
and no other column is touched. -/
def update_job_progress (jobs : JobStore) (job_id : String) (progress : ℚ) :
    JobStore :=
  jobs.map (fun x => if x.id == job_id then { x with progress := progress } else x)

/-- The `JobManager.set_job_output_files`:
`UPDATE jobs SET output_files = ? WHERE id = ?`. -/
def set_job_output_files (jobs : JobStore) (job_id : String)
    (output_files : List String) : JobStore :=
  jobs.map (fun x => if x.id == job_id then { x with output_files := output_files } else x)

/-! ## Dispatch (`Scheduler.schedule_job`) -/

/-- Combined master-side state touched by `Scheduler.schedule_job`: the
scheduler's worker registry (`self._workers`, iterated in insertion
order), the job table, and the transcript of `job_assign` messages handed
to `ws_manager.send_personal_message` as `(worker_id, job_id)` pairs. -/
structure MasterState where
  workers : List WorkerInfo
  jobs : JobStore
  sent : List (String × String)
deriving DecidableEq, Repr

/-- Upsert of a (mutated) worker object back into the registry dict —
in Python the selected `WorkerInfo` is mutated in place, so the registry
entry with its id now carries the new field values. -/
def putWorker (workers : List WorkerInfo) (w : WorkerInfo) : List WorkerInfo :=
  workers.map (fun x => if x.worker_id == w.worker_id then w else x)

/-- The `Scheduler.schedule_job` from `scheduler.py`. `sendOk` is the outcome
of `ws_manager.send_personal_message`: when it raises, control jumps to
the `except` block, which returns `None` before any worker mutation; when
it succeeds the worker is marked busy with the job's id. The job table is
never touched by this method. -/
def schedule_job (st : MasterState) (sendOk : Bool) (job : Job) :
    Option WorkerInfo × MasterState :=
  let required_vram := get_vram_requirement job.workflow_type
  match select_worker st.workers job.workflow_type (some required_vram) with
  | none => (none, st)
  | some w =>
    if sendOk then
      let w' := { w with status := "busy", current_job_id := some job.id }
      (some w',
       { st with workers := putWorker st.workers w',
                 sent := st.sent ++ [(w.worker_id, job.id)] })
    else
      (none, st)

/-! ## Health monitor (`master/services/health_monitor.py`) -/

/-- The `Scheduler.update_worker_status` as invoked by the health monitor
(`update_worker_status(worker_id, "offline")`): sets the status, refreshes
`last_heartbeat` to now, and leaves `gpus` and `current_job_id` unchanged
(both optional arguments are `None`). -/
def markOffline (now : ℚ) (w : WorkerInfo) : WorkerInfo :=
  { w with status := "offline", last_heartbeat := some now }

/-- One iteration of the loop body of `HealthMonitor._check_all_workers`
for a single worker. Returns the worker's new record, whether it was
marked offline this tick, and whether the recovery callback fired for it.
`hasCb` is whether `self._on_worker_offline` is set; the callback guard
also requires a truthy `current_job_id` (a non-`None`, non-empty string). -/
def check_worker (hasCb : Bool) (threshold now : ℚ) (w : WorkerInfo) :
    WorkerInfo × Bool × Bool :=
  if w.status == "offline" then (w, false, false)
  else
    match w.last_heartbeat with
    | none => (w, false, false)
    | some hb =>
      if threshold < now - hb then
        (markOffline now w, true, hasCb && strTruthy w.current_job_id)
      else (w, false, false)

/-- The `HealthMonitor._check_all_workers`: apply `check_worker` to every
registered worker; the registry after the tick. -/
def tickWorkers (hasCb : Bool) (threshold now : ℚ) (ws : List WorkerInfo) :
    List WorkerInfo :=
  ws.map (fun w => (check_worker hasCb threshold now w).1)

/-- The ids the tick passes to `update_worker_status(..., "offline")`. -/
def tickMarked (hasCb : Bool) (threshold now : ℚ) (ws : List WorkerInfo) :
    List String :=
  (ws.filter (fun w => (check_worker hasCb threshold now w).2.1)).map WorkerInfo.worker_id

/-- The ids for which the tick invokes the recovery callback. -/
def tickCallbacks (hasCb : Bool) (threshold now : ℚ) (ws : List WorkerInfo) :
    List String :=
  (ws.filter (fun w => (check_worker hasCb threshold now w).2.2)).map WorkerInfo.worker_id

/-! ## Heartbeat registration (`master/routers/websocket.py`) -/

/-- A raw GPU dict as sent by a worker agent: `memory_total` and
`memory_used` in MB, absent keys reading as 0 via `g.get(..., 0)`. -/
structure RawGPU where
  memory_total : Option ℚ
  memory_used : Option ℚ
deriving DecidableEq, Repr

/-- The `_map_gpu_data` from `websocket.py`: translate agent GPU keys to the
scheduler-expected `memory_total_mb` / `memory_used_mb` format. -/
def map_gpu_data (raw_gpus : List RawGPU) : List GPU :=
  raw_gpus.map (fun g =>
    { memory_total_mb := g.memory_total.getD 0,
      memory_used_mb := g.memory_used.getD 0 })

/-- The `info` object of a heartbeat message:
`msg.get("info", {})` with `info.get("hostname", "Unknown")` and
`info.get("gpus", [])`. -/
structure HeartbeatInfo where
  hostname : Option String
  gpus : List RawGPU
deriving DecidableEq, Repr

/-- A parsed heartbeat message as consumed by the websocket endpoint:
only the `info` field feeds the scheduler registration. -/
structure HeartbeatMsg where
  info : Option HeartbeatInfo
deriving DecidableEq, Repr

/-- The `WorkerInfo` constructed in the `heartbeat` branch of
`websocket_endpoint` and passed to `scheduler.register_worker`: built with
`status="online"` and `is_simulated=False` unconditionally; `port=0`;
`current_job_id` and `last_heartbeat` keep their dataclass defaults
(`None`). -/
def heartbeat_worker_info (client_id client_ip : String) (msg : HeartbeatMsg) :
    WorkerInfo :=
  let info := msg.info.getD { hostname := none, gpus := [] }
  { worker_id := client_id,
    name := info.hostname.getD "Unknown",
    host := client_ip,
    port := 0,
    gpus := map_gpu_data info.gpus,
    status := "online",
    current_job_id := none,
    last_heartbeat := none,
    is_simulated := false }

/-! ## Example states used by concrete instantiations -/

/-- An idle online worker with one 24 GiB GPU fully free. -/
def workerA : WorkerInfo :=
  { worker_id := "wA", name := "A", host := "h", port := 0,
    gpus := [{ memory_total_mb := 24576, memory_used_mb := 0 }],
    status := "online", current_job_id := none,
    last_heartbeat := some 0, is_simulated := false }

/-- An idle online worker with 20 GB free (20480 MB). -/
def worker20 : WorkerInfo :=
  { worker_id := "w20", name := "twenty", host := "h", port := 0,
    gpus := [{ memory_total_mb := 20480, memory_used_mb := 0 }],
    status := "online", current_job_id := none,
    last_heartbeat := some 0, is_simulated := false }

/-- An idle online worker with 10 GB free (10240 MB). -/
def worker10 : WorkerInfo :=
  { worker_id := "w10", name := "ten", host := "h", port := 0,
    gpus := [{ memory_total_mb := 10240, memory_used_mb := 0 }],
    status := "online", current_job_id := none,
    last_heartbeat := some 0, is_simulated := false }

/-- A pending job for the `sdxl_t2i` workflow (8 GB requirement). -/
def jobJ : Job :=
  { id := "J", project_id := "p", shot_id := none,
    workflow_type := "sdxl_t2i", params := "{}",
    vram_required_gb := 8, gpu_count_required := 1,
    status := .pending, priority := 1, progress := 0,
    assigned_worker_id := none, created_at := 0,
    started_at := none, completed_at := none,
    error_message := none, output_files := [] }

/-- A cancelled job row (terminal). -/
def jobCancelled : Job :=
  { jobJ with id := "C", status := .cancelled, completed_at := some 20 }

/-- An assigned job row whose `started_at` is already set. -/
def jobStarted : Job :=
  { jobJ with id := "R", status := .assigned, started_at := some 5 }

/-- Master state before the concrete dispatch: one idle worker, one
pending job, nothing sent. -/
def st0 : MasterState := { workers := [workerA], jobs := [jobJ], sent := [] }

/-- The `workerA` after being marked busy with `jobJ`. -/
def workerABusy : WorkerInfo :=
  { workerA with status := "busy", current_job_id := some "J" }

/-- Master state after the concrete dispatch succeeds. -/
def st1 : MasterState :=
  { workers := [workerABusy], jobs := [jobJ], sent := [("wA", "J")] }

/-- A busy worker that stopped heartbeating at time 0. -/
def workerBusyStale : WorkerInfo :=
  { worker_id := "wB", name := "B", host := "h", port := 0,
    gpus := [], status := "busy", current_job_id := some "J",
    last_heartbeat := some 0, is_simulated := false }

/-- The claim's reading of the resolved requirement, stated from the
spec's words for comparison with the code's `or`-based resolution: the
explicitly supplied value when given, otherwise the table entry for the
workflow kind (with the named default fallback). -/
def claimResolvedRequirement (required_vram_gb : Option ℚ)
    (workflow_type : String) : ℚ :=
  match required_vram_gb with
  | some v => v
  | none => get_vram_requirement workflow_type

/-! ## Order lemmas for the selection key -/

lemma keyLt_irrefl (a : WorkerInfo) : keyLt a a = false := by
  simp [keyLt]

lemma keyLt_trans {a b c : WorkerInfo} (h1 : keyLt a b = true)
    (h2 : keyLt b c = true) : keyLt a c = true := by
  cases ha : a.is_simulated <;> cases hb : b.is_simulated <;>
    cases hc : c.is_simulated <;>
    simp [keyLt, ha, hb, hc] at h1 h2 ⊢ <;> linarith

lemma keyLt_neg_trans {a b c : WorkerInfo} (h1 : keyLt a b = false)
    (h2 : keyLt b c = false) : keyLt a c = false := by
  cases ha : a.is_simulated <;> cases hb : b.is_simulated <;>
    cases hc : c.is_simulated <;>
    simp [keyLt, ha, hb, hc] at h1 h2 ⊢ <;> linarith

lemma foldl_best_mem (ws : List WorkerInfo) : ∀ w : WorkerInfo,
    ws.foldl (fun best c => if keyLt best c then c else best) w ∈ w :: ws := by
  induction ws with
  | nil => intro w; simp
  | cons c cs ih =>
    intro w
    simp only [List.foldl_cons]
    have h := ih (if keyLt w c then c else w)
    by_cases hk : keyLt w c = true <;> simp [hk] at h ⊢ <;> tauto

lemma foldl_best_max (ws : List WorkerInfo) : ∀ w : WorkerInfo,
    ∀ x, (x = w ∨ x ∈ ws) →
    keyLt (ws.foldl (fun best c => if keyLt best c then c else best) w) x = false := by
  induction ws with
  | nil =>
    intro w x hx
    simp at hx
    subst hx
    exact keyLt_irrefl _
  | cons c cs ih =>
    intro w x hx
    simp only [List.foldl_cons]
    by_cases hk : keyLt w c = true
    · simp only [hk, if_true]
      rcases hx with hw | hx
      · subst hw
        by_contra hcontra
        rw [Bool.not_eq_false] at hcontra
        have hrc : keyLt (cs.foldl (fun best c => if keyLt best c then c else best) c) c
            = false := ih c c (Or.inl rfl)
        have : keyLt (cs.foldl (fun best c => if keyLt best c then c else best) c) c
            = true := keyLt_trans hcontra hk
        simp [this] at hrc
      · rcases List.mem_cons.mp hx with h1 | h2
        · exact ih c x (Or.inl h1)
        · exact ih c x (Or.inr h2)
    · simp only [Bool.not_eq_true] at hk
      simp only [hk, if_false]
      rcases hx with hw | hx
      · exact ih w x (Or.inl hw)
      · rcases List.mem_cons.mp hx with h1 | h2
        · subst h1
          have hrw : keyLt (cs.foldl (fun best c => if keyLt best c then c else best) w) w
              = false := ih w w (Or.inl rfl)
          exact keyLt_neg_trans hrw hk
        · exact ih w x (Or.inr h2)

lemma pickBest_mem {l : List WorkerInfo} {w : WorkerInfo}
    (h : pickBest l = some w) : w ∈ l := by
  cases l with
  | nil => simp [pickBest] at h
  | cons p ps =>
    simp only [pickBest, Option.some.injEq] at h
    subst h
    exact foldl_best_mem ps p

lemma pickBest_max {l : List WorkerInfo} {w : WorkerInfo}
    (h : pickBest l = some w) : ∀ x ∈ l, keyLt w x = false := by
  cases l with
  | nil => simp [pickBest] at h
  | cons p ps =>
    simp only [pickBest, Option.some.injEq] at h
    subst h
    intro x hx
    exact foldl_best_max ps p x (List.mem_cons.mp hx)

/-! ## VRAM requirement resolution -/

lemma lookup_mem {l : List (String × ℚ)} {a : String} {v : ℚ}
    (h : l.lookup a = some v) : (a, v) ∈ l := by
  induction l with
  | nil => simp [List.lookup] at h
  | cons p ps ih =>
    rw [List.lookup_cons] at h
    split at h
    · rename_i hb
      cases h
      have : a = p.1 := beq_iff_eq.mp hb
      subst this
      simp
    · exact List.mem_cons_of_mem _ (ih h)

lemma vram_table_nonneg : ∀ p ∈ VRAM_REQUIREMENTS, 0 ≤ p.2 := by decide

lemma get_vram_requirement_nonneg (wt : String) :
    0 ≤ get_vram_requirement wt := by
  unfold get_vram_requirement
  cases h : VRAM_REQUIREMENTS.lookup wt with
  | none => simp only [Option.getD]; decide
  | some v => simpa using vram_table_nonneg _ (lookup_mem h)

lemma claimResolved_le_resolveVramNeeded (req : Option ℚ) (wt : String) :
    claimResolvedRequirement req wt ≤ resolveVramNeeded req wt := by
  cases req with
  | none => simp [claimResolvedRequirement, resolveVramNeeded]
  | some v =>
    simp only [claimResolvedRequirement, resolveVramNeeded]
    by_cases hv : v = 0
    · subst hv
      simpa using get_vram_requirement_nonneg wt
    · simp [hv]

lemma mem_candidateList {workers : List WorkerInfo} {wt : String}
    {req : Option ℚ} {w : WorkerInfo}
    (h : w ∈ candidateList workers wt req) :
    w ∈ workers ∧ w.is_available = true ∧
      resolveVramNeeded req wt ≤ w.free_vram_gb := by
  simp only [candidateList, List.mem_filter, Bool.and_eq_true,
    decide_eq_true_eq] at h
  exact ⟨h.1, h.2.1, h.2.2⟩

/-- C1: every worker returned by `select_worker` has free VRAM at least
the resolved requirement — the explicitly supplied `required_vram_gb`
when given, otherwise the `VRAM_REQUIREMENTS` entry for the workflow
kind, falling back to the `"default"` entry for unknown kinds. -/
theorem select_worker_vram_safety
    (workers : List WorkerInfo) (workflow_type : String)
    (required_vram_gb : Option ℚ) (w : WorkerInfo)
    (h : select_worker workers workflow_type required_vram_gb = some w) :
    claimResolvedRequirement required_vram_gb workflow_type ≤ w.free_vram_gb := by
  unfold select_worker at h
  have hmem := mem_candidateList (pickBest_mem h)
  calc claimResolvedRequirement required_vram_gb workflow_type
      ≤ resolveVramNeeded required_vram_gb workflow_type :=
        claimResolved_le_resolveVramNeeded _ _
    _ ≤ w.free_vram_gb := hmem.2.2

/-- Witness for C1 at a concrete input: one idle 24 GiB worker and the
`flux_t2i` workflow (14 GB table entry). -/
theorem select_worker_vram_safety_witness :
    select_worker [workerA] "flux_t2i" none = some workerA ∧
    claimResolvedRequirement none "flux_t2i" ≤ workerA.free_vram_gb :=
  ⟨by norm_num [select_worker, candidateList, resolveVramNeeded,
      get_vram_requirement, VRAM_REQUIREMENTS, WorkerInfo.is_available,
      WorkerInfo.free_vram_gb, pickBest, workerA, List.lookup, List.filter],
   select_worker_vram_safety [workerA] "flux_t2i" none workerA
     (by norm_num [select_worker, candidateList, resolveVramNeeded,
       get_vram_requirement, VRAM_REQUIREMENTS, WorkerInfo.is_available,
       WorkerInfo.free_vram_gb, pickBest, workerA, List.lookup, List.filter])⟩

/-- C6: the returned worker is maximal among the candidates under the
source ordering `(not is_simulated, free_vram_gb)`: any candidate with
real hardware data forces the selected worker to have real data, and
against a candidate with the same flag the selected worker has at least
as much free VRAM. -/
theorem select_worker_ordering
    (workers : List WorkerInfo) (workflow_type : String)
    (required_vram_gb : Option ℚ) (w : WorkerInfo)
    (h : select_worker workers workflow_type required_vram_gb = some w) :
    ∀ c ∈ candidateList workers workflow_type required_vram_gb,
      (c.is_simulated = false → w.is_simulated = false) ∧
      (w.is_simulated = c.is_simulated → c.free_vram_gb ≤ w.free_vram_gb) := by
  intro c hc
  unfold select_worker at h
  have hmax := pickBest_max h c hc
  cases hw : w.is_simulated <;> cases hcs : c.is_simulated <;>
    simp [keyLt, hw, hcs] at hmax ⊢ <;> linarith

/-- Witness for C6 at a concrete input: free VRAM 20 GB and 10 GB with an
8 GB requirement — the 20 GB worker is selected and ranks at least as
high as the 10 GB candidate. -/
theorem select_worker_ordering_witness :
    select_worker [worker20, worker10] "sdxl_t2i" (some 8) = some worker20 ∧
    ((worker10.is_simulated = false → worker20.is_simulated = false) ∧
     (worker20.is_simulated = worker10.is_simulated →
       worker10.free_vram_gb ≤ worker20.free_vram_gb)) :=
  ⟨by norm_num [select_worker, candidateList, resolveVramNeeded,
      WorkerInfo.is_available, WorkerInfo.free_vram_gb, pickBest,
      worker20, worker10, List.filter, keyLt],
   select_worker_ordering [worker20, worker10] "sdxl_t2i" (some 8) worker20
     (by norm_num [select_worker, candidateList, resolveVramNeeded,
       WorkerInfo.is_available, WorkerInfo.free_vram_gb, pickBest,
       worker20, worker10, List.filter, keyLt])
     worker10
     (by norm_num [candidateList, resolveVramNeeded, WorkerInfo.is_available,
       WorkerInfo.free_vram_gb, worker20, worker10, List.filter])⟩

/-! ## Job store lemmas -/

lemma get_job_map_update (jobs : JobStore) (job_id : String) (f : Job → Job)
    (hf : ∀ j, (f j).id = j.id) :
    get_job (jobs.map (fun x => if x.id == job_id then f x else x)) job_id
      = (get_job jobs job_id).map f := by
  induction jobs with
  | nil => simp [get_job]
  | cons j js ih =>
    by_cases hj : (j.id == job_id) = true
    · have hfj : ((f j).id == job_id) = true := by rw [hf]; exact hj
      simp only [List.map_cons, if_pos hj]
      simp only [get_job]
      rw [List.find?_cons_of_pos (p := fun (w : Job) => w.id == job_id) _ hfj,
        List.find?_cons_of_pos (p := fun (w : Job) => w.id == job_id) _ hj]
      rfl
    · have hj' : (j.id == job_id) = false := by simpa using hj
      simp only [List.map_cons, hj', Bool.false_eq_true, if_false]
      simp only [get_job] at ih ⊢
      rw [List.find?_cons_of_neg _ (by simp [hj']),
        List.find?_cons_of_neg _ (by simp [hj'])]
      exact ih

lemma get_job_map_const (jobs : JobStore) (job_id : String) (j' : Job)
    (hkey : (j'.id == job_id) = true) :
    get_job (jobs.map (fun x => if x.id == job_id then j' else x)) job_id
      = (get_job jobs job_id).map (fun _ => j') := by
  induction jobs with
  | nil => simp [get_job]
  | cons x xs ih =>
    by_cases hx : (x.id == job_id) = true
    · simp only [List.map_cons, if_pos hx]
      simp only [get_job]
      rw [List.find?_cons_of_pos (p := fun (w : Job) => w.id == job_id) _ hkey,
        List.find?_cons_of_pos (p := fun (w : Job) => w.id == job_id) _ hx]
      rfl
    · have hx' : (x.id == job_id) = false := by simpa using hx
      simp only [List.map_cons, hx', Bool.false_eq_true, if_false]
      simp only [get_job] at ih ⊢
      rw [List.find?_cons_of_neg _ (by simp [hx']),
        List.find?_cons_of_neg _ (by simp [hx'])]
      exact ih

lemma get_job_save (jobs : JobStore) (job_id : String) (j j' : Job)
    (h : get_job jobs job_id = some j) (hid : j'.id = j.id) :
    get_job (save_job jobs j') job_id = some j' := by
  have hjid : j.id = job_id := by simpa using List.find?_some h
  have hkey : j'.id = job_id := hid.trans hjid
  unfold save_job
  simp only [hkey]
  rw [get_job_map_const jobs job_id j' (by simp [hkey]), h]
  rfl

lemma applyStatusUpdate_id (now : ℚ) (s : JobStatus) (m : Option String)
    (j : Job) : (applyStatusUpdate now s m j).id = j.id := by
  simp only [applyStatusUpdate]
  split_ifs <;> rfl

lemma applyStatusUpdate_status (now : ℚ) (s : JobStatus) (m : Option String)
    (j : Job) : (applyStatusUpdate now s m j).status = s := by
  simp only [applyStatusUpdate]
  split_ifs <;> rfl

lemma get_job_update_job_status (jobs : JobStore) (now : ℚ) (job_id : String)
    (s : JobStatus) (m : Option String) (j : Job)
    (h : get_job jobs job_id = some j) :
    get_job (update_job_status jobs now job_id s m) job_id
      = some (applyStatusUpdate now s m j) := by
  unfold update_job_status
  rw [h]
  exact get_job_save jobs job_id j _ h (applyStatusUpdate_id now s m j)

/-- C2, evaluated at the failing input: `get_pending_job` is a pure
`SELECT` — on a store holding the single pending job `jobJ` it returns
`jobJ` while the store value is untouched, so the returned job's status
is still `pending` and an immediately subsequent call returns the very
same job; nothing in the call claims the job. -/
theorem get_pending_job_does_not_claim :
    get_pending_job [jobJ] = some jobJ ∧ jobJ.status = .pending := by
  constructor
  · simp [get_pending_job, jobJ, List.filter]
  · rfl

/-- C3 counterexample: a `job_completed` report on an already-cancelled
job is not a no-op — `update_job_status` overwrites the terminal status,
changing the job's observable fields. -/
theorem terminal_immutability_counterexample :
    jobCancelled.status = .cancelled ∧
    (get_job (update_job_status [jobCancelled] 50 "C" .completed none) "C").map
        Job.status = some .completed := by
  constructor
  · rfl
  · simp [update_job_status, get_job, save_job, applyStatusUpdate,
      strTruthy, JobStatus.isTerminal, jobCancelled, jobJ, List.find?]

/-- C3 amended: the store has no terminal-state guard — on an existing
job whose status is terminal, `update_job_status` stores the new status
exactly as it would on an active job, `update_job_progress` stores the
new progress, and `set_job_output_files` stores the new output list; the
Python methods return `None`, so no return value lets a caller detect a
no-op. -/
theorem terminal_jobs_mutable
    (jobs : JobStore) (now : ℚ) (job_id : String) (j : Job)
    (h : get_job jobs job_id = some j) (hterm : j.status.isTerminal = true)
    (s : JobStatus) (m : Option String) :
    (get_job (update_job_status jobs now job_id s m) job_id).map Job.status
        = some s ∧
    (∀ p : ℚ, (get_job (update_job_progress jobs job_id p) job_id).map
        Job.progress = some p) ∧
    (∀ fs : List String, (get_job (set_job_output_files jobs job_id fs) job_id).map
        Job.output_files = some fs) := by
  refine ⟨?_, ?_, ?_⟩
  · rw [get_job_update_job_status jobs now job_id s m j h]
    simp [applyStatusUpdate_status]
  · intro p
    unfold update_job_progress
    rw [get_job_map_update jobs job_id (fun x => { x with progress := p })
      (fun _ => rfl), h]
    rfl
  · intro fs
    unfold set_job_output_files
    rw [get_job_map_update jobs job_id (fun x => { x with output_files := fs })
      (fun _ => rfl), h]
    rfl

/-- Witness for C3 amended: a `job_completed` report on the concrete
cancelled job mutates it. -/
theorem terminal_jobs_mutable_witness :
    (get_job (update_job_status [jobCancelled] 50 "C" .completed none) "C").map
        Job.status = some JobStatus.completed ∧
    (∀ p : ℚ, (get_job (update_job_progress [jobCancelled] "C" p) "C").map
        Job.progress = some p) ∧
    (∀ fs : List String, (get_job (set_job_output_files [jobCancelled] "C" fs) "C").map
        Job.output_files = some fs) :=
  terminal_jobs_mutable [jobCancelled] 50 "C" jobCancelled
    (by simp [get_job, jobCancelled, jobJ, List.find?]) (by rfl)
    .completed none

/-- C8 counterexample: on a transition to `running` with a message, the
stored job's `started_at` is overwritten although it was already set, and
the message lands in the error field although the new status is not
`failed`. -/
theorem update_status_fields_counterexample :
    jobStarted.started_at = some 5 ∧
    (get_job (update_job_status [jobStarted] 10 "R" .running (some "note")) "R").map
        (fun j => (j.started_at, j.error_message))
      = some (some 10, some "note") := by
  constructor
  · rfl
  · simp [update_job_status, get_job, save_job, applyStatusUpdate, strTruthy,
      JobStatus.isTerminal, jobStarted, jobJ, List.find?]

/-- C8 amended: for an existing job, `update_job_status` stores the
result of `applyStatusUpdate`: the new status is always stored; a
transition to `running` sets `started_at := now` unconditionally,
overwriting any previous value; every call with a terminal status sets
`completed_at := now` (so repeated terminal calls each overwrite it); and
a non-empty message populates the error field for every status, not only
`failed`. -/
theorem update_job_status_field_behavior
    (jobs : JobStore) (now : ℚ) (job_id : String) (j : Job)
    (s : JobStatus) (m : Option String)
    (h : get_job jobs job_id = some j) :
    get_job (update_job_status jobs now job_id s m) job_id
      = some (applyStatusUpdate now s m j) ∧
    (applyStatusUpdate now s m j).status = s ∧
    (s = .running → (applyStatusUpdate now s m j).started_at = some now) ∧
    (s.isTerminal = true → (applyStatusUpdate now s m j).completed_at = some now) ∧
    (strTruthy m = true → (applyStatusUpdate now s m j).error_message = m) := by
  refine ⟨get_job_update_job_status jobs now job_id s m j h,
    applyStatusUpdate_status now s m j, ?_, ?_, ?_⟩
  · intro hs
    subst hs
    simp only [applyStatusUpdate]
    split_ifs <;> simp_all
  · intro ht
    cases s <;> simp only [JobStatus.isTerminal] at ht <;>
      simp [applyStatusUpdate, JobStatus.isTerminal] <;>
      split_ifs <;> simp_all
  · intro hm
    simp only [applyStatusUpdate]
    split_ifs <;> simp_all

/-- Witness for C8 amended at a concrete input: the running transition
with a message. -/
theorem update_job_status_field_behavior_witness :
    get_job (update_job_status [jobStarted] 10 "R" .running (some "note")) "R"
      = some (applyStatusUpdate 10 .running (some "note") jobStarted) ∧
    (applyStatusUpdate 10 .running (some "note") jobStarted).status = .running ∧
    (JobStatus.running = .running →
      (applyStatusUpdate 10 .running (some "note") jobStarted).started_at = some 10) ∧
    (JobStatus.running.isTerminal = true →
      (applyStatusUpdate 10 .running (some "note") jobStarted).completed_at = some 10) ∧
    (strTruthy (some "note") = true →
      (applyStatusUpdate 10 .running (some "note") jobStarted).error_message
        = some "note") :=
  update_job_status_field_behavior [jobStarted] 10 "R" jobStarted .running
    (some "note") (by simp [get_job, jobStarted, jobJ, List.find?])

/-- C9 counterexample: `update_job_progress` stores the raw value — a
fraction of 2 is stored as 2, which lies outside [0, 1]. -/
theorem update_job_progress_clamp_counterexample :
    (get_job (update_job_progress [jobJ] "J" 2) "J").map Job.progress = some 2 ∧
    ¬ ((2 : ℚ) ≤ 1) := by
  constructor
  · simp [update_job_progress, get_job, jobJ, List.find?]
  · norm_num

/-- C9 amended: the stored progress is the raw fraction, with no
clamping; the row is otherwise unchanged — in particular the job's
status is untouched. -/
theorem update_job_progress_stores_raw
    (jobs : JobStore) (job_id : String) (p : ℚ) (j : Job)
    (h : get_job jobs job_id = some j) :
    get_job (update_job_progress jobs job_id p) job_id
      = some { j with progress := p } := by
  unfold update_job_progress
  rw [get_job_map_update jobs job_id (fun x => { x with progress := p })
    (fun _ => rfl), h]
  rfl

/-- Witness for C9 amended at a concrete input: storing the
out-of-range fraction 2. -/
theorem update_job_progress_stores_raw_witness :
    get_job (update_job_progress [jobJ] "J" 2) "J"
      = some { jobJ with progress := 2 } :=
  update_job_progress_stores_raw [jobJ] "J" 2 jobJ
    (by simp [get_job, jobJ, List.find?])

/-! ## Dispatch and monitor theorems -/

lemma get_vram_requirement_sdxl : get_vram_requirement "sdxl_t2i" = 8 := rfl

/-- C5: when the transport send fails, `schedule_job` commits no partial
state: it returns `None` and the master state — worker registry, job
table (so a pending job stays pending and is never marked assigned), and
sent-message transcript — is exactly as before the call. -/
theorem schedule_job_send_failure_no_partial_state
    (st : MasterState) (job : Job) :
    schedule_job st false job = (none, st) := by
  unfold schedule_job
  cases h : select_worker st.workers job.workflow_type
      (some (get_vram_requirement job.workflow_type)) <;> simp [h]

/-- C4 counterexample: dispatching the concrete pending job `jobJ` with a
successful send returns a worker, yet the job's status in the store is
still `pending` — `schedule_job` never sets it to `assigned`. -/
theorem schedule_job_assigned_counterexample :
    ((schedule_job st0 true jobJ).1).isSome = true ∧
    (get_job (schedule_job st0 true jobJ).2.jobs "J").map Job.status
      = some .pending := by
  constructor <;>
  · norm_num [schedule_job, st0, select_worker, candidateList, resolveVramNeeded,
      get_vram_requirement_sdxl, WorkerInfo.is_available,
      WorkerInfo.free_vram_gb, pickBest, workerA, jobJ, List.filter,
      get_job, putWorker, List.find?]

/-- C4 amended: for every successful dispatch, the assignment message was
sent to the selected worker's connection and that worker's registry
record is `busy` with `current_job_id = job.id`; the job store, however,
is untouched — the job's status is not set to `assigned`. -/
theorem schedule_job_success_postcondition
    (st : MasterState) (job : Job) (w : WorkerInfo) (st' : MasterState)
    (h : schedule_job st true job = (some w, st')) :
    w.status = "busy" ∧ w.current_job_id = some job.id ∧
    st'.sent = st.sent ++ [(w.worker_id, job.id)] ∧
    w ∈ st'.workers ∧
    st'.jobs = st.jobs := by
  simp only [schedule_job] at h
  cases hsel : select_worker st.workers job.workflow_type
      (some (get_vram_requirement job.workflow_type)) with
  | none =>
    simp [hsel] at h
  | some w0 =>
    simp only [hsel] at h
    rw [if_pos trivial] at h
    rw [Prod.mk.injEq] at h
    obtain ⟨h1, h2⟩ := h
    cases h1
    subst h2
    have hw0 : w0 ∈ st.workers :=
      (mem_candidateList (pickBest_mem hsel)).1
    refine ⟨rfl, rfl, rfl, ?_, rfl⟩
    have hmap := List.mem_map_of_mem
      (fun x => if x.worker_id ==
        (({ w0 with status := "busy", current_job_id := some job.id } :
          WorkerInfo)).worker_id
        then ({ w0 with status := "busy", current_job_id := some job.id } :
          WorkerInfo) else x) hw0
    simpa [putWorker] using hmap

/-- Witness for C4 amended: the concrete dispatch of `jobJ` to `workerA`. -/
theorem schedule_job_success_postcondition_witness :
    workerABusy.status = "busy" ∧ workerABusy.current_job_id = some jobJ.id ∧
    st1.sent = st0.sent ++ [(workerABusy.worker_id, jobJ.id)] ∧
    workerABusy ∈ st1.workers ∧
    st1.jobs = st0.jobs :=
  schedule_job_success_postcondition st0 jobJ workerABusy st1
    (by norm_num [schedule_job, st0, st1, select_worker, candidateList,
      resolveVramNeeded, get_vram_requirement_sdxl,
      WorkerInfo.is_available, WorkerInfo.free_vram_gb, pickBest, workerA,
      workerABusy, jobJ, List.filter, putWorker])

lemma check_worker_worker_id (hasCb : Bool) (th t : ℚ) (w : WorkerInfo) :
    (check_worker hasCb th t w).1.worker_id = w.worker_id := by
  unfold check_worker
  split
  · rfl
  · split
    · rfl
    · split
      · rfl
      · rfl

lemma check_worker_offline_skip (hasCb : Bool) (th t : ℚ) (w : WorkerInfo)
    (h : (w.status == "offline") = true) :
    check_worker hasCb th t w = (w, false, false) := by
  simp [check_worker, h]

lemma check_worker_marked_offline (hasCb : Bool) (th t : ℚ) (w : WorkerInfo)
    (h : (check_worker hasCb th t w).2.1 = true) :
    ((check_worker hasCb th t w).1.status == "offline") = true := by
  by_cases hoff : (w.status == "offline") = true
  · simp [check_worker, hoff] at h
  · have hoff' : (w.status == "offline") = false := by simpa using hoff
    cases hhb : w.last_heartbeat with
    | none => simp [check_worker, hoff', hhb] at h
    | some hb =>
      by_cases hth : th < t - hb
      · simp [check_worker, hoff', hhb, if_pos hth, markOffline]
      · simp [check_worker, hoff', hhb, hth] at h

lemma check_worker_second_tick_noop (hasCb : Bool) (th t1 t2 : ℚ)
    (w : WorkerInfo) (h : (check_worker hasCb th t1 w).2.1 = true) :
    check_worker hasCb th t2 (check_worker hasCb th t1 w).1
      = ((check_worker hasCb th t1 w).1, false, false) :=
  check_worker_offline_skip hasCb th t2 _ (check_worker_marked_offline hasCb th t1 w h)

/-- C7: a worker the health-monitor tick marks offline is skipped by every
subsequent tick — its id never reappears among the ids marked offline or
the ids passed to the recovery callback, so `markOffline` and the
callback fire exactly once per loss period (worker ids are unique, the
registry being a dict keyed by id). -/
theorem health_monitor_marks_offline_once
    (hasCb : Bool) (threshold t1 t2 : ℚ) (ws : List WorkerInfo)
    (hnodup : (ws.map WorkerInfo.worker_id).Nodup) :
    ∀ id ∈ tickMarked hasCb threshold t1 ws,
      id ∉ tickMarked hasCb threshold t2 (tickWorkers hasCb threshold t1 ws) ∧
      id ∉ tickCallbacks hasCb threshold t2 (tickWorkers hasCb threshold t1 ws) := by
  intro id hid1
  simp only [tickMarked, List.mem_map, List.mem_filter] at hid1
  obtain ⟨x0, ⟨hx0mem, hx0marked⟩, hx0id⟩ := hid1
  have key : ∀ x ∈ ws, (check_worker hasCb threshold t1 x).1.worker_id = id →
      check_worker hasCb threshold t2 (check_worker hasCb threshold t1 x).1
        = ((check_worker hasCb threshold t1 x).1, false, false) := by
    intro x hxmem hxid
    have hxx0 : x = x0 := by
      apply List.inj_on_of_nodup_map hnodup hxmem hx0mem
      rw [check_worker_worker_id] at hxid
      rw [hxid, hx0id]
    subst hxx0
    exact check_worker_second_tick_noop hasCb threshold t1 t2 x hx0marked
  constructor
  · intro hid2
    simp only [tickMarked, tickWorkers, List.mem_map, List.mem_filter] at hid2
    obtain ⟨y, ⟨hymem, hymarked⟩, hyid⟩ := hid2
    obtain ⟨x, hxmem, hyx⟩ := hymem
    subst hyx
    rw [key x hxmem hyid] at hymarked
    simp at hymarked
  · intro hid2
    simp only [tickCallbacks, tickWorkers, List.mem_map, List.mem_filter] at hid2
    obtain ⟨y, ⟨hymem, hyfired⟩, hyid⟩ := hid2
    obtain ⟨x, hxmem, hyx⟩ := hymem
    subst hyx
    rw [key x hxmem hyid] at hyfired
    simp at hyfired

/-- Witness for C7: threshold 30, the tick at time 100 marks the stale
busy worker offline; the tick at time 200 neither marks it again nor
fires the callback again. -/
theorem health_monitor_marks_offline_once_witness :
    "wB" ∉ tickMarked true 30 200 (tickWorkers true 30 100 [workerBusyStale]) ∧
    "wB" ∉ tickCallbacks true 30 200 (tickWorkers true 30 100 [workerBusyStale]) :=
  health_monitor_marks_offline_once true 30 100 200 [workerBusyStale]
    (by simp) "wB"
    (by simp [tickMarked, check_worker, workerBusyStale, strTruthy, List.filter]
        norm_num)

/-- C10: every `WorkerInfo` the websocket heartbeat branch registers has
`is_simulated = false` and status `"online"`, whatever the message
content; hence between two transport-registered workers the placeholder
tier of `select_worker`'s ordering never distinguishes candidates — the
sort-key comparison degenerates to the free-VRAM comparison. -/
theorem heartbeat_worker_not_simulated
    (cid1 ip1 cid2 ip2 : String) (m1 m2 : HeartbeatMsg) :
    (heartbeat_worker_info cid1 ip1 m1).is_simulated = false ∧
    (heartbeat_worker_info cid1 ip1 m1).status = "online" ∧
    keyLt (heartbeat_worker_info cid1 ip1 m1) (heartbeat_worker_info cid2 ip2 m2)
      = decide ((heartbeat_worker_info cid1 ip1 m1).free_vram_gb
          < (heartbeat_worker_info cid2 ip2 m2).free_vram_gb) := by
  refine ⟨rfl, rfl, ?_⟩
  simp [keyLt, heartbeat_worker_info]

end AICinePipe
